import Mathlib

/-!
Verification of the realm-policy logic of the addtaskmanager-mcp-server
repository.  The definitions below are a shallow embedding of the
TypeScript source: the MCP server entry (realm mapping, argument
validation, the ADD-framework transition validator, the mutation guards
and the mock item fetcher) and the CloudKit service's derived query
`getTasksInDecideUndecided`.

Modelling conventions:
* JavaScript timestamps (milliseconds since epoch) are `Int`; the single
  validation-time clock reading `Date.now()` / `new Date()` is passed in
  as a `now : Int` argument.
* Locale-dependent date rendering (`toLocaleDateString`, `toISOString`)
  is passed in as an abstract `fmt : Int → String` argument, and ISO-string
  parsing (`new Date(isoString)`) as `parse : String → Int`; the theorems
  hold for every such function.
* Thrown `McpError`s become `Except McpError` results.
* Nullable JavaScript values become `Option`; string fields built by the
  mock fetcher are non-empty ISO strings whenever present, so their JS
  truthiness test coincides with `Option.isSome` on the parsed value.
-/

namespace AddTaskManager

/-- Error codes of the MCP SDK used by the server. -/
inductive ErrorCode where
  | invalidParams
  | invalidRequest
  | methodNotFound
  | internalError
deriving DecidableEq

/-- An `McpError` as thrown by the server: a code and a message. -/
structure McpError where
  code : ErrorCode
  message : String
deriving DecidableEq

def REALM_ASSESS_ID : Int := 1

def REALM_DECIDE_ID : Int := 2

def REALM_DO_ID : Int := 3

/-- `realmStringToId` from the server source: maps a realm label to its
numeric id, throwing `McpError(InvalidParams, ...)` for any other string
(the TypeScript annotation narrows the type, but the runtime check and
throw are in the source). -/
def realmStringToId (realmStr : String) : Except McpError Int :=
  if realmStr = "assess" then Except.ok REALM_ASSESS_ID
  else if realmStr = "decide" then Except.ok REALM_DECIDE_ID
  else if realmStr = "do" then Except.ok REALM_DO_ID
  else Except.error ⟨ErrorCode.invalidParams, "Invalid realm string: " ++ realmStr⟩

/-- `realmIdToString` from the server source: maps a realm id back to its
label, throwing `McpError(InternalError, ...)` for any other number. -/
def realmIdToString (realmId : Int) : Except McpError String :=
  if realmId = REALM_ASSESS_ID then Except.ok ("assess")
  else if realmId = REALM_DECIDE_ID then Except.ok ("decide")
  else if realmId = REALM_DO_ID then Except.ok ("do")
  else Except.error ⟨ErrorCode.internalError, "Invalid realm ID: " ++ toString realmId⟩

/-- `leadsWith p s` is true when the character list `p` is an initial
segment of `s` (helper for the JavaScript `String.includes` test). -/
def leadsWith : List Char → List Char → Bool
  | [], _ => true
  | _ :: _, [] => false
  | p :: ps, c :: cs => p == c && leadsWith ps cs

/-- `hasSub pat s` is true when `pat` occurs contiguously inside `s`. -/
def hasSub (pat : List Char) : List Char → Bool
  | [] => leadsWith pat []
  | c :: rest => leadsWith pat (c :: rest) || hasSub pat rest

/-- JavaScript `s.includes(pat)`: substring containment on strings. -/
def containsSubstr (s pat : String) : Bool :=
  hasSub pat.data s.data

/-- The item snapshot produced by `mockFetchItem` and consumed by the
transition validator and mutation guards.  `endDate` holds the parsed
timestamp of the ISO string the source stores (the `lastModified` field
of the source's `baseItem` is read by no consumer and is not modelled). -/
structure MockItem where
  recordName : String
  type : String
  realmId : Int
  contextRecordName : Option String
  endDate : Option Int
deriving DecidableEq

/-- `mockFetchItem` from the server source: the data fetcher used by the
validation logic.  It keys mock states off substrings of the record name
and returns a default Assess item for any unrecognized name; every
branch returns a record, never `null`. -/
def mockFetchItem (itemRecordName : String) (itemType : String) (now : Int) :
    Option MockItem :=
  if containsSubstr itemRecordName ("assess") then
    some ⟨itemRecordName, itemType, REALM_ASSESS_ID, none, none⟩
  else if containsSubstr itemRecordName ("undecided") then
    some ⟨itemRecordName, itemType, REALM_DECIDE_ID, none, none⟩
  else if containsSubstr itemRecordName ("stalled") then
    some ⟨itemRecordName, itemType, REALM_DECIDE_ID, some ("context_work"), some (now - 86400000)⟩
  else if containsSubstr itemRecordName ("ready") then
    some ⟨itemRecordName, itemType, REALM_DECIDE_ID, some ("context_work"), some (now + 86400000)⟩
  else if containsSubstr itemRecordName ("do") then
    some ⟨itemRecordName, itemType, REALM_DO_ID, some ("context_work"), some now⟩
  else
    some ⟨itemRecordName, itemType, REALM_ASSESS_ID, none, none⟩

/-- JavaScript truthiness of a nullable string: `null`/`undefined` and
the empty string are falsy. -/
def truthyStr (o : Option String) : Bool :=
  match o with
  | none => false
  | some s => s != ""

/-- JavaScript truthiness of a nullable number: `null`/`undefined` and
`0` are falsy. -/
def truthyInt (o : Option Int) : Bool :=
  match o with
  | none => false
  | some n => n != 0

/-- The `{valid, reason}` record returned by the transition validator. -/
structure ValidationResult where
  valid : Bool
  reason : String
deriving DecidableEq

/-- `validateFromAssess` from the server source. -/
def validateFromAssess (item : MockItem) (targetRealmId : Int) (itemType : String) :
    ValidationResult :=
  if targetRealmId = REALM_DECIDE_ID then
    ⟨true, "Valid progression from Assess to Decide realm"⟩
  else if targetRealmId = REALM_DO_ID then
    ⟨true, itemType ++ " moved directly from Assess to Do (skipping Decide) - ensure context and due date are set"⟩
  else if targetRealmId = REALM_ASSESS_ID then
    ⟨false, itemType ++ " is already in Assess realm"⟩
  else
    ⟨false, "Invalid target realm ID: " ++ toString targetRealmId⟩

/-- `validateFromDecide` from the server source.  Moving to Do requires a
truthy context reference and a truthy end date whose instant is not
strictly before `now` (`dueDate < now` in the source). -/
def validateFromDecide (fmt : Int → String) (now : Int) (item : MockItem)
    (targetRealmId : Int) (itemType : String) : ValidationResult :=
  if targetRealmId = REALM_DO_ID then
    if truthyStr item.contextRecordName = false then
      ⟨false, itemType ++ " must have a context assigned before moving to Do realm"⟩
    else
      match item.endDate with
      | none =>
        ⟨false, itemType ++ " must have a due date set before moving to Do realm"⟩
      | some dueDate =>
        if dueDate < now then
          ⟨false, itemType ++ " has a past due date (" ++ fmt dueDate ++ ") - update due date or move back to Assess"⟩
        else
          ⟨true, itemType ++ " ready for Do realm - context and future due date set"⟩
  else if targetRealmId = REALM_ASSESS_ID then
    ⟨true, itemType ++ " moved back to Assess realm for re-evaluation - context and due date will be cleared"⟩
  else if targetRealmId = REALM_DECIDE_ID then
    ⟨false, itemType ++ " is already in Decide realm"⟩
  else
    ⟨false, "Invalid target realm ID: " ++ toString targetRealmId⟩

/-- `validateFromDo` from the server source. -/
def validateFromDo (item : MockItem) (targetRealmId : Int) (itemType : String) :
    ValidationResult :=
  if targetRealmId = REALM_ASSESS_ID then
    ⟨true, itemType ++ " moved back to Assess realm - will be cleared of context and due date for fresh evaluation"⟩
  else if targetRealmId = REALM_DECIDE_ID then
    ⟨true, itemType ++ " moved back to Decide realm for rescheduling or context adjustment"⟩
  else if targetRealmId = REALM_DO_ID then
    ⟨false, itemType ++ " is already in Do realm"⟩
  else
    ⟨false, "Invalid target realm ID: " ++ toString targetRealmId⟩

/-- `validateRealmTransition` from the server source: fetches the item
snapshot, resolves the target realm id (a throw there propagates), and
dispatches on the item's current realm id. -/
def validateRealmTransition (fmt : Int → String) (now : Int)
    (itemRecordName itemType targetRealm : String) :
    Except McpError ValidationResult :=
  match mockFetchItem itemRecordName itemType now with
  | none =>
    Except.ok ⟨false, itemType ++ " " ++ itemRecordName ++ " not found"⟩
  | some currentItem =>
    match realmStringToId targetRealm with
    | Except.error e => Except.error e
    | Except.ok targetRealmId =>
      if currentItem.realmId = REALM_ASSESS_ID then
        Except.ok (validateFromAssess currentItem targetRealmId itemType)
      else if currentItem.realmId = REALM_DECIDE_ID then
        Except.ok (validateFromDecide fmt now currentItem targetRealmId itemType)
      else if currentItem.realmId = REALM_DO_ID then
        Except.ok (validateFromDo currentItem targetRealmId itemType)
      else
        Except.ok ⟨false, "Invalid current realm ID: " ++ toString currentItem.realmId⟩

/-- `moveItemToRealm` from the server source: builds the success message
for an applied realm move (the realm-specific cleanup notes included). -/
def moveItemToRealm (itemRecordName itemType targetRealmStr : String) :
    Except McpError String :=
  match realmStringToId targetRealmStr with
  | Except.error e => Except.error e
  | Except.ok targetRealmId =>
    let updateMessage := itemType ++ " " ++ itemRecordName ++ " moved to " ++
      targetRealmStr ++ " realm (ID: " ++ toString targetRealmId ++ ")"
    if targetRealmId = REALM_ASSESS_ID then
      Except.ok (updateMessage ++ ". Context and due date cleared for fresh evaluation")
    else if targetRealmId = REALM_DECIDE_ID ∧ targetRealmStr ≠ "decide" then
      Except.ok (updateMessage ++ ". Ready for context assignment and due date setting")
    else
      Except.ok updateMessage

/-- `moveTaskToRealm` from the server source: validate, then either throw
`McpError(InvalidParams, reason)` or apply the move. -/
def moveTaskToRealm (fmt : Int → String) (now : Int)
    (taskRecordName targetRealm : String) : Except McpError String :=
  match validateRealmTransition fmt now taskRecordName ("Task") targetRealm with
  | Except.error e => Except.error e
  | Except.ok validationResult =>
    if validationResult.valid = false then
      Except.error ⟨ErrorCode.invalidParams, validationResult.reason⟩
    else
      moveItemToRealm taskRecordName ("Task") targetRealm

/-- `moveProjectToRealm` from the server source. -/
def moveProjectToRealm (fmt : Int → String) (now : Int)
    (projectRecordName targetRealm : String) : Except McpError String :=
  match validateRealmTransition fmt now projectRecordName ("Project") targetRealm with
  | Except.error e => Except.error e
  | Except.ok validationResult =>
    if validationResult.valid = false then
      Except.error ⟨ErrorCode.invalidParams, validationResult.reason⟩
    else
      moveItemToRealm projectRecordName ("Project") targetRealm

/-- `markTaskAsDone` from the server source: fetch, require realm Do,
then report completion (`fmt now` renders the completion instant). -/
def markTaskAsDone (fmt : Int → String) (now : Int) (taskRecordName : String) :
    Except McpError String :=
  match mockFetchItem taskRecordName ("Task") now with
  | none =>
    Except.error ⟨ErrorCode.invalidParams, "Task " ++ taskRecordName ++ " not found"⟩
  | some item =>
    if item.realmId ≠ REALM_DO_ID then
      Except.error ⟨ErrorCode.invalidParams,
        "Task " ++ taskRecordName ++ " must be in Do realm to mark as done. Current realm: " ++
          toString item.realmId ++ ". Move to Do realm first."⟩
    else
      Except.ok ("Task " ++ taskRecordName ++ " marked as done at " ++ fmt now ++
        ". Moved to Done collection (realm 4).")

/-- `markProjectAsDone` from the server source. -/
def markProjectAsDone (fmt : Int → String) (now : Int) (projectRecordName : String) :
    Except McpError String :=
  match mockFetchItem projectRecordName ("Project") now with
  | none =>
    Except.error ⟨ErrorCode.invalidParams, "Project " ++ projectRecordName ++ " not found"⟩
  | some item =>
    if item.realmId ≠ REALM_DO_ID then
      Except.error ⟨ErrorCode.invalidParams,
        "Project " ++ projectRecordName ++ " must be in Do realm to mark as done. Current realm: " ++
          toString item.realmId ++ ". Move to Do realm first."⟩
    else
      Except.ok ("Project " ++ projectRecordName ++ " and all subtasks marked as done at " ++
        fmt now ++ ". Moved to Done collection (realm 4).")

/-- `editTask` from the server source: builds the update message from the
truthy optional arguments and returns it; no fetch and no realm check
appear in the source body. -/
def editTask (taskRecordName : String) (taskName : Option String)
    (taskPriority : Option Int) : Except McpError String :=
  let updateMsg := "Task " ++ taskRecordName ++ " updated."
  let updateMsg :=
    if truthyStr taskName then
      updateMsg ++ " Name set to \"" ++ taskName.getD ("") ++ "\"."
    else updateMsg
  let updateMsg :=
    if truthyInt taskPriority then
      updateMsg ++ " Priority set to " ++ toString (taskPriority.getD 0) ++ "."
    else updateMsg
  Except.ok updateMsg

/-- `setDueDateForItem` from the server source: reports the due-date
assignment (no fetch or check in the source body). -/
def setDueDateForItem (itemRecordName itemType endDateISO : String) :
    Except McpError String :=
  Except.ok ("Due date (endDate) " ++ endDateISO ++ " set for " ++ itemType ++ " " ++
    itemRecordName ++ " in Decide realm.")

/-- `setProjectInterval` from the server source: delegates straight to
`setDueDateForItem` with no realm or future-date check. -/
def setProjectInterval (projectRecordName startDate endDate : String) :
    Except McpError String :=
  setDueDateForItem projectRecordName ("Project") endDate

/-- `setTaskDueDate` from the server source: fetch, require realm Decide,
require the parsed due date to be in the future (`dueDate <= now` is
rejected), then delegate to `setDueDateForItem`. -/
def setTaskDueDate (parse : String → Int) (fmt : Int → String) (now : Int)
    (taskRecordName endDate : String) : Except McpError String :=
  match mockFetchItem taskRecordName ("Task") now with
  | none =>
    Except.error ⟨ErrorCode.invalidParams, "Task " ++ taskRecordName ++ " not found"⟩
  | some item =>
    if item.realmId ≠ REALM_DECIDE_ID then
      Except.error ⟨ErrorCode.invalidParams,
        "Task " ++ taskRecordName ++ " must be in Decide realm to set due date. Current realm: " ++
          toString item.realmId⟩
    else
      let dueDate := parse endDate
      if dueDate ≤ now then
        Except.error ⟨ErrorCode.invalidParams,
          "Due date must be in the future. Provided: " ++ fmt dueDate⟩
      else
        setDueDateForItem taskRecordName ("Task") endDate

/-- The `{valid, error}` result the auth middleware returns to
`validateAuthentication` (external collaborator input). -/
structure AuthValidation where
  valid : Bool
  error : Option String
deriving DecidableEq

/-- The mutable server fields `validateAuthentication` and
`withCloudKitOrMock` read: production flag, presence of the lazily
imported services, session and user token. -/
structure ServerAuthState where
  productionMode : Bool
  hasAuthMiddleware : Bool
  hasSession : Bool
  sessionValidation : AuthValidation
  hasUserToken : Bool
  hasCloudKitService : Bool
deriving DecidableEq

/-- JavaScript `a || b` on a nullable string: the default is used when
the value is `null`/`undefined` or empty. -/
def orDefault (o : Option String) (d : String) : String :=
  match o with
  | none => d
  | some v => if v == "" then d else v

/-- `validateAuthentication` from the server source. -/
def validateAuthentication (s : ServerAuthState) : Except McpError Unit :=
  if s.productionMode && s.hasAuthMiddleware && s.hasSession then
    if s.sessionValidation.valid then Except.ok ()
    else
      Except.error ⟨ErrorCode.invalidParams,
        orDefault s.sessionValidation.error ("Session expired. Please re-authenticate.")⟩
  else if !s.hasUserToken then
    Except.error ⟨ErrorCode.invalidParams,
      "Not authenticated. Please call authenticate_user first."⟩
  else Except.ok ()

/-- `withCloudKitOrMock` from the server source: after authentication, in
production mode with a CloudKit service the CloudKit operation is run,
and on ANY failure of it the mock operation is run instead; outside
production mode the mock operation is run directly. -/
def withCloudKitOrMock {α : Type} (s : ServerAuthState)
    (cloudKitOperation mockOperation : Except McpError α) : Except McpError α :=
  match validateAuthentication s with
  | Except.error e => Except.error e
  | Except.ok _ =>
    if s.productionMode && s.hasCloudKitService then
      match cloudKitOperation with
      | Except.ok v => Except.ok v
      | Except.error _ => mockOperation
    else mockOperation

/-- A JSON-ish argument value at the tool boundary; `undef` models a key
present with value `undefined`. -/
inductive ArgVal where
  | str (s : String)
  | num (n : Int)
  | null
  | undef
deriving DecidableEq

/-- First-match lookup in the argument map (JavaScript `args[req]`,
`none` when the key is absent). -/
def lookupArg (args : List (String × ArgVal)) (k : String) : Option ArgVal :=
  match args.find? (fun p => p.1 == k) with
  | some p => some p.2
  | none => none

/-- The per-argument rejection test of `validateArgs`:
`!(req in args) || args[req] === undefined || args[req] === null ||
args[req] === ''`. -/
def argMissing (args : List (String × ArgVal)) (req : String) : Bool :=
  match lookupArg args req with
  | none => true
  | some ArgVal.undef => true
  | some ArgVal.null => true
  | some (ArgVal.str s) => s == ""
  | some (ArgVal.num _) => false

/-- The `for (const req of required)` loop body of `validateArgs`. -/
def validateArgsLoop (args : List (String × ArgVal)) :
    List String → Except McpError Unit
  | [] => Except.ok ()
  | req :: rest =>
    if argMissing args req then
      Except.error ⟨ErrorCode.invalidParams, "Missing required argument: " ++ req ++ "."⟩
    else validateArgsLoop args rest

/-- `validateArgs` from the server source: reject absent argument
objects, then reject the first required argument that is absent,
`undefined`, `null` or the empty string. -/
def validateArgs (args : Option (List (String × ArgVal))) (required : List String) :
    Except McpError Unit :=
  match args with
  | none => Except.error ⟨ErrorCode.invalidParams, "Arguments are missing."⟩
  | some a => validateArgsLoop a required

/-- A task record as filtered by the CloudKit service's Decide-realm
queries: the record identifier and the three fields those queries
constrain. -/
structure CKTask where
  recordName : String
  realmId : Int
  contextRecordName : Option String
  endDate : Option Int
deriving DecidableEq

/-- The first query of `getTasksInDecideUndecided`: records of realm 2
whose `contextRecordName` field EQUALS null. -/
def decideNoContext (db : List CKTask) : List CKTask :=
  db.filter (fun t => t.realmId == 2 && t.contextRecordName == none)

/-- The second query of `getTasksInDecideUndecided`: records of realm 2
whose `endDate` field EQUALS null. -/
def decideNoDueDate (db : List CKTask) : List CKTask :=
  db.filter (fun t => t.realmId == 2 && t.endDate == none)

/-- One `uniqueRecords.set(recordName, task)` step of the combine loop:
a JavaScript `Map` keeps the original insertion position of an existing
key and stores the new value, and appends a fresh key. -/
def mapSet (m : List CKTask) (t : CKTask) : List CKTask :=
  if m.any (fun u => u.recordName == t.recordName) then
    m.map (fun u => if u.recordName == t.recordName then t else u)
  else m ++ [t]

/-- `getTasksInDecideUndecided` from the CloudKit service source: run the
two realm-2 queries, concatenate, and deduplicate by `recordName`
through a `Map`, returning the values in insertion order. -/
def getTasksInDecideUndecided (db : List CKTask) : List CKTask :=
  (decideNoContext db ++ decideNoDueDate db).foldl mapSet []

/-- A fixed date renderer standing in for `toLocaleDateString` in the
concrete evaluations below. -/
def fmtSample : Int → String :=
  fun _ => "<date>"

/-- A fixed ISO-date parser for the concrete evaluations below. -/
def parseSample : String → Int :=
  fun _ => 86400000

/-! ### String helper lemmas

Two strings that end (or begin) in different fixed literals are
different; used to separate the validator's reason strings from the
item-not-found reason. -/

theorem ne_of_rev_take_ne (a b : String) (n : Nat)
    (h : a.data.reverse.take n ≠ b.data.reverse.take n) : a ≠ b := by
  intro e
  exact h (by rw [e])

theorem data_rev_take_append (x lit : String) (n : Nat) (h : n ≤ lit.data.length) :
    ((x ++ lit).data.reverse.take n) = lit.data.reverse.take n := by
  rw [String.data_append, List.reverse_append,
    List.take_append_of_le_length (by simpa using h)]

theorem append_ne_append (x lit y suf : String)
    (hl : 2 ≤ lit.data.length) (hs : 2 ≤ suf.data.length)
    (h : lit.data.reverse.take 2 ≠ suf.data.reverse.take 2) :
    x ++ lit ≠ y ++ suf := by
  apply ne_of_rev_take_ne _ _ 2
  rw [data_rev_take_append x lit 2 hl, data_rev_take_append y suf 2 hs]
  exact h

theorem lit_ne_append (a y suf : String) (hs : 2 ≤ suf.data.length)
    (h : a.data.reverse.take 2 ≠ suf.data.reverse.take 2) : a ≠ y ++ suf := by
  apply ne_of_rev_take_ne _ _ 2
  rw [data_rev_take_append y suf 2 hs]
  exact h

theorem ne_of_take_ne (a b : String) (n : Nat)
    (h : a.data.take n ≠ b.data.take n) : a ≠ b := by
  intro e
  exact h (by rw [e])

theorem data_take_append (lit x : String) (n : Nat) (h : n ≤ lit.data.length) :
    ((lit ++ x).data.take n) = lit.data.take n := by
  rw [String.data_append, List.take_append_of_le_length h]

/-! ### Shape lemmas for the mock fetcher and the transition validator -/

/-- Every result of `mockFetchItem` is one of five concrete snapshots;
in particular it is never `none`. -/
theorem mockFetchItem_cases (name ty : String) (now : Int) :
    mockFetchItem name ty now = some ⟨name, ty, REALM_ASSESS_ID, none, none⟩ ∨
    mockFetchItem name ty now = some ⟨name, ty, REALM_DECIDE_ID, none, none⟩ ∨
    mockFetchItem name ty now =
      some ⟨name, ty, REALM_DECIDE_ID, some ("context_work"), some (now - 86400000)⟩ ∨
    mockFetchItem name ty now =
      some ⟨name, ty, REALM_DECIDE_ID, some ("context_work"), some (now + 86400000)⟩ ∨
    mockFetchItem name ty now =
      some ⟨name, ty, REALM_DO_ID, some ("context_work"), some now⟩ := by
  unfold mockFetchItem
  repeat' split
  all_goals simp

theorem realmStringToId_cases (target : String) :
    realmStringToId target = Except.ok REALM_ASSESS_ID ∨
    realmStringToId target = Except.ok REALM_DECIDE_ID ∨
    realmStringToId target = Except.ok REALM_DO_ID ∨
    realmStringToId target =
      Except.error ⟨ErrorCode.invalidParams, "Invalid realm string: " ++ target⟩ := by
  unfold realmStringToId
  repeat' split
  all_goals simp

/-- When the fetched snapshot is in the Decide realm, validating a move
to Do dispatches to `validateFromDecide`. -/
theorem validateRealmTransition_decide (fmt : Int → String) (now : Int)
    (name ty : String) (item : MockItem)
    (hfetch : mockFetchItem name ty now = some item)
    (hrealm : item.realmId = REALM_DECIDE_ID) :
    validateRealmTransition fmt now name ty ("do") =
      Except.ok (validateFromDecide fmt now item REALM_DO_ID ty) := by
  unfold validateRealmTransition
  rw [hfetch]
  rw [show realmStringToId ("do") = Except.ok REALM_DO_ID from rfl]
  simp [hrealm, REALM_ASSESS_ID, REALM_DECIDE_ID, REALM_DO_ID]


theorem validateFromAssess_reason_ne (item : MockItem) (tid : Int) (ty nm : String)
    (h : tid = REALM_ASSESS_ID ∨ tid = REALM_DECIDE_ID ∨ tid = REALM_DO_ID) :
    (validateFromAssess item tid ty).reason ≠ ty ++ " " ++ nm ++ " not found" := by
  unfold validateFromAssess
  rcases h with h | h | h <;> subst h <;>
    simp only [REALM_ASSESS_ID, REALM_DECIDE_ID, REALM_DO_ID, if_true] <;>
    (repeat' split) <;>
    first
      | exact append_ne_append _ _ _ _ (by decide) (by decide) (by decide)
      | exact lit_ne_append _ _ _ (by decide) (by decide)

theorem validateFromDecide_reason_ne (fmt : Int → String) (now : Int)
    (item : MockItem) (tid : Int) (ty nm : String)
    (h : tid = REALM_ASSESS_ID ∨ tid = REALM_DECIDE_ID ∨ tid = REALM_DO_ID) :
    (validateFromDecide fmt now item tid ty).reason ≠ ty ++ " " ++ nm ++ " not found" := by
  unfold validateFromDecide
  rcases h with h | h | h <;> subst h <;>
    simp only [REALM_ASSESS_ID, REALM_DECIDE_ID, REALM_DO_ID, if_true] <;>
    (repeat' split) <;>
    first
      | exact append_ne_append _ _ _ _ (by decide) (by decide) (by decide)
      | exact lit_ne_append _ _ _ (by decide) (by decide)

theorem validateFromDo_reason_ne (item : MockItem) (tid : Int) (ty nm : String)
    (h : tid = REALM_ASSESS_ID ∨ tid = REALM_DECIDE_ID ∨ tid = REALM_DO_ID) :
    (validateFromDo item tid ty).reason ≠ ty ++ " " ++ nm ++ " not found" := by
  unfold validateFromDo
  rcases h with h | h | h <;> subst h <;>
    simp only [REALM_ASSESS_ID, REALM_DECIDE_ID, REALM_DO_ID, if_true] <;>
    (repeat' split) <;>
    first
      | exact append_ne_append _ _ _ _ (by decide) (by decide) (by decide)
      | exact lit_ne_append _ _ _ (by decide) (by decide)

/-- Every `Except.ok` result of `validateRealmTransition` comes from one
of the three per-realm validators at a target id in the closed enum (the
fetch never misses and the fetched realm id is always 1, 2 or 3). -/
theorem validateRealmTransition_ok_cases (fmt : Int → String) (now : Int)
    (name ty target : String) (vr : ValidationResult)
    (h : validateRealmTransition fmt now name ty target = Except.ok vr) :
    ∃ item tid,
      (tid = REALM_ASSESS_ID ∨ tid = REALM_DECIDE_ID ∨ tid = REALM_DO_ID) ∧
      (vr = validateFromAssess item tid ty ∨
       vr = validateFromDecide fmt now item tid ty ∨
       vr = validateFromDo item tid ty) := by
  unfold validateRealmTransition at h
  obtain hm | hm | hm | hm | hm := mockFetchItem_cases name ty now <;>
    rw [hm] at h <;>
    obtain ht | ht | ht | ht := realmStringToId_cases target <;>
      rw [ht] at h <;>
      simp [REALM_ASSESS_ID, REALM_DECIDE_ID, REALM_DO_ID] at h <;>
      first
        | exact ⟨_, 1, Or.inl rfl, Or.inl h.symm⟩
        | exact ⟨_, 2, Or.inr (Or.inl rfl), Or.inl h.symm⟩
        | exact ⟨_, 3, Or.inr (Or.inr rfl), Or.inl h.symm⟩
        | exact ⟨_, 1, Or.inl rfl, Or.inr (Or.inl h.symm)⟩
        | exact ⟨_, 2, Or.inr (Or.inl rfl), Or.inr (Or.inl h.symm)⟩
        | exact ⟨_, 3, Or.inr (Or.inr rfl), Or.inr (Or.inl h.symm)⟩
        | exact ⟨_, 1, Or.inl rfl, Or.inr (Or.inr h.symm)⟩
        | exact ⟨_, 2, Or.inr (Or.inl rfl), Or.inr (Or.inr h.symm)⟩
        | exact ⟨_, 3, Or.inr (Or.inr rfl), Or.inr (Or.inr h.symm)⟩

/-- The only error `validateRealmTransition` can raise is the invalid
realm label thrown by `realmStringToId`. -/
theorem validateRealmTransition_error_shape (fmt : Int → String) (now : Int)
    (name ty target : String) (e : McpError)
    (h : validateRealmTransition fmt now name ty target = Except.error e) :
    e = ⟨ErrorCode.invalidParams, "Invalid realm string: " ++ target⟩ := by
  unfold validateRealmTransition at h
  obtain hm | hm | hm | hm | hm := mockFetchItem_cases name ty now <;>
    rw [hm] at h <;>
    obtain ht | ht | ht | ht := realmStringToId_cases target <;>
      rw [ht] at h <;>
      simp [REALM_ASSESS_ID, REALM_DECIDE_ID, REALM_DO_ID] at h <;>
      first
        | exact h.symm
        | exact h

/-- A successful validation implies the target label resolved. -/
theorem validateRealmTransition_ok_target (fmt : Int → String) (now : Int)
    (name ty target : String) (vr : ValidationResult)
    (h : validateRealmTransition fmt now name ty target = Except.ok vr) :
    ∃ tid, realmStringToId target = Except.ok tid := by
  unfold validateRealmTransition at h
  obtain hm | hm | hm | hm | hm := mockFetchItem_cases name ty now <;>
    rw [hm] at h <;>
    obtain ht | ht | ht | ht := realmStringToId_cases target <;>
      first
        | exact ⟨_, ht⟩
        | (rw [ht] at h; simp at h)

/-- No reason string a successful validation returns is the
item-not-found reason. -/
theorem validateRealmTransition_reason_ne (fmt : Int → String) (now : Int)
    (name ty target : String) (vr : ValidationResult)
    (h : validateRealmTransition fmt now name ty target = Except.ok vr) :
    vr.reason ≠ ty ++ " " ++ name ++ " not found" := by
  obtain ⟨item, tid, htid, hvr | hvr | hvr⟩ :=
    validateRealmTransition_ok_cases fmt now name ty target vr h <;> subst hvr
  · exact validateFromAssess_reason_ne item tid ty name htid
  · exact validateFromDecide_reason_ne fmt now item tid ty name htid
  · exact validateFromDo_reason_ne item tid ty name htid

theorem invalid_ne_notFound_task (target name : String) :
    ("Invalid realm string: " ++ target) ≠ "Task" ++ " " ++ name ++ " not found" := by
  apply ne_of_take_ne _ _ 2
  rw [data_take_append ("Invalid realm string: ") target 2 (by decide),
    String.append_assoc, String.append_assoc,
    data_take_append ("Task") (" " ++ (name ++ " not found")) 2 (by decide)]
  decide

theorem invalid_ne_notFound_project (target name : String) :
    ("Invalid realm string: " ++ target) ≠ "Project" ++ " " ++ name ++ " not found" := by
  apply ne_of_take_ne _ _ 2
  rw [data_take_append ("Invalid realm string: ") target 2 (by decide),
    String.append_assoc, String.append_assoc,
    data_take_append ("Project") (" " ++ (name ++ " not found")) 2 (by decide)]
  decide

/-- A task realm move never fails with the item-not-found reason. -/
theorem moveTaskToRealm_ne_notFound (fmt : Int → String) (now : Int)
    (name target : String) :
    moveTaskToRealm fmt now name target ≠
      Except.error ⟨ErrorCode.invalidParams, "Task" ++ " " ++ name ++ " not found"⟩ := by
  intro hc
  unfold moveTaskToRealm at hc
  split at hc
  · rename_i e hv
    have he := validateRealmTransition_error_shape fmt now name ("Task") target e hv
    subst he
    have hmsg := congrArg McpError.message (Except.error.inj hc)
    exact invalid_ne_notFound_task target name hmsg
  · rename_i vr hv
    split at hc
    · have hmsg := congrArg McpError.message (Except.error.inj hc)
      exact validateRealmTransition_reason_ne fmt now name ("Task") target vr hv hmsg
    · obtain ⟨tid, ht⟩ := validateRealmTransition_ok_target fmt now name ("Task") target vr hv
      unfold moveItemToRealm at hc
      rw [ht] at hc
      split at hc
      · rename_i e heq
        exact absurd heq (by simp)
      · (repeat' split at hc) <;> simp at hc

/-- A project realm move never fails with the item-not-found reason. -/
theorem moveProjectToRealm_ne_notFound (fmt : Int → String) (now : Int)
    (name target : String) :
    moveProjectToRealm fmt now name target ≠
      Except.error ⟨ErrorCode.invalidParams, "Project" ++ " " ++ name ++ " not found"⟩ := by
  intro hc
  unfold moveProjectToRealm at hc
  split at hc
  · rename_i e hv
    have he := validateRealmTransition_error_shape fmt now name ("Project") target e hv
    subst he
    have hmsg := congrArg McpError.message (Except.error.inj hc)
    exact invalid_ne_notFound_project target name hmsg
  · rename_i vr hv
    split at hc
    · have hmsg := congrArg McpError.message (Except.error.inj hc)
      exact validateRealmTransition_reason_ne fmt now name ("Project") target vr hv hmsg
    · obtain ⟨tid, ht⟩ := validateRealmTransition_ok_target fmt now name ("Project") target vr hv
      unfold moveItemToRealm at hc
      rw [ht] at hc
      split at hc
      · rename_i e heq
        exact absurd heq (by simp)
      · (repeat' split at hc) <;> simp at hc

/-- An item fetched in the Decide realm is one of the three Decide-realm
mock snapshots. -/
theorem mockItem_decide_shape (name ty : String) (now : Int) (item : MockItem)
    (hfetch : mockFetchItem name ty now = some item)
    (hrealm : item.realmId = REALM_DECIDE_ID) :
    item = ⟨name, ty, REALM_DECIDE_ID, none, none⟩ ∨
    item = ⟨name, ty, REALM_DECIDE_ID, some ("context_work"), some (now - 86400000)⟩ ∨
    item = ⟨name, ty, REALM_DECIDE_ID, some ("context_work"), some (now + 86400000)⟩ := by
  obtain hm | hm | hm | hm | hm := mockFetchItem_cases name ty now
  · rw [hm] at hfetch
    replace hfetch := (Option.some.inj hfetch).symm
    subst hfetch
    simp [REALM_ASSESS_ID, REALM_DECIDE_ID, REALM_DO_ID] at hrealm
  · rw [hm] at hfetch
    replace hfetch := (Option.some.inj hfetch).symm
    subst hfetch
    exact Or.inl rfl
  · rw [hm] at hfetch
    replace hfetch := (Option.some.inj hfetch).symm
    subst hfetch
    exact Or.inr (Or.inl rfl)
  · rw [hm] at hfetch
    replace hfetch := (Option.some.inj hfetch).symm
    subst hfetch
    exact Or.inr (Or.inr rfl)
  · rw [hm] at hfetch
    replace hfetch := (Option.some.inj hfetch).symm
    subst hfetch
    simp [REALM_ASSESS_ID, REALM_DECIDE_ID, REALM_DO_ID] at hrealm

/-- C2 scaffold: properties of `validateFromDecide` on the three
Decide-realm snapshots. -/
theorem validateFromDecide_do_spec (fmt : Int → String) (now : Int)
    (name ty : String) (item : MockItem)
    (hshape : item = ⟨name, ty, REALM_DECIDE_ID, none, none⟩ ∨
      item = ⟨name, ty, REALM_DECIDE_ID, some ("context_work"), some (now - 86400000)⟩ ∨
      item = ⟨name, ty, REALM_DECIDE_ID, some ("context_work"), some (now + 86400000)⟩) :
    ((validateFromDecide fmt now item REALM_DO_ID ty).valid = true ↔
      item.contextRecordName ≠ none ∧ ∃ d, item.endDate = some d ∧ ¬ d < now) ∧
    (item.contextRecordName = none →
      (validateFromDecide fmt now item REALM_DO_ID ty).reason =
        ty ++ " must have a context assigned before moving to Do realm") ∧
    (item.contextRecordName ≠ none → item.endDate = none →
      (validateFromDecide fmt now item REALM_DO_ID ty).reason =
        ty ++ " must have a due date set before moving to Do realm") ∧
    (∀ d, item.contextRecordName ≠ none → item.endDate = some d → d < now →
      (validateFromDecide fmt now item REALM_DO_ID ty).reason =
        ty ++ " has a past due date (" ++ fmt d ++ ") - update due date or move back to Assess") := by
  obtain hs | hs | hs := hshape <;> subst hs
  · refine ⟨?_, ?_, ?_, ?_⟩ <;> simp [validateFromDecide, truthyStr]
  · have hpast : now - 86400000 < now := by omega
    refine ⟨?_, ?_, ?_, ?_⟩ <;>
      simp [validateFromDecide, truthyStr, if_pos hpast]
  · have hfut : ¬ (now + 86400000 < now) := by omega
    refine ⟨?_, ?_, ?_, ?_⟩ <;>
      simp [validateFromDecide, truthyStr, if_neg hfut]

/-- Computation of `markTaskAsDone` once the fetch result is known. -/
theorem markTaskAsDone_eq (fmt : Int → String) (now : Int) (name : String)
    (item : MockItem) (h : mockFetchItem name ("Task") now = some item) :
    markTaskAsDone fmt now name =
      if item.realmId ≠ REALM_DO_ID then
        Except.error ⟨ErrorCode.invalidParams,
          "Task " ++ name ++ " must be in Do realm to mark as done. Current realm: " ++
            toString item.realmId ++ ". Move to Do realm first."⟩
      else
        Except.ok ("Task " ++ name ++ " marked as done at " ++ fmt now ++
          ". Moved to Done collection (realm 4).") := by
  unfold markTaskAsDone
  rw [h]

/-- Computation of `markProjectAsDone` once the fetch result is known. -/
theorem markProjectAsDone_eq (fmt : Int → String) (now : Int) (name : String)
    (item : MockItem) (h : mockFetchItem name ("Project") now = some item) :
    markProjectAsDone fmt now name =
      if item.realmId ≠ REALM_DO_ID then
        Except.error ⟨ErrorCode.invalidParams,
          "Project " ++ name ++ " must be in Do realm to mark as done. Current realm: " ++
            toString item.realmId ++ ". Move to Do realm first."⟩
      else
        Except.ok ("Project " ++ name ++ " and all subtasks marked as done at " ++ fmt now ++
          ". Moved to Done collection (realm 4).") := by
  unfold markProjectAsDone
  rw [h]

/-- Computation of `setTaskDueDate` once the fetch result is known. -/
theorem setTaskDueDate_eq (parse : String → Int) (fmt : Int → String) (now : Int)
    (name endDate : String) (item : MockItem)
    (h : mockFetchItem name ("Task") now = some item) :
    setTaskDueDate parse fmt now name endDate =
      if item.realmId ≠ REALM_DECIDE_ID then
        Except.error ⟨ErrorCode.invalidParams,
          "Task " ++ name ++ " must be in Decide realm to set due date. Current realm: " ++
            toString item.realmId⟩
      else if parse endDate ≤ now then
        Except.error ⟨ErrorCode.invalidParams,
          "Due date must be in the future. Provided: " ++ fmt (parse endDate)⟩
      else
        Except.ok ("Due date (endDate) " ++ endDate ++ " set for " ++ "Task" ++ " " ++ name ++
          " in Decide realm.") := by
  unfold setTaskDueDate
  simp only [h, setDueDateForItem]

/-- C1 (counterexample): with production mode on, an authenticated
session and a CloudKit service present, a failing CloudKit operation
does NOT surface as an error: `withCloudKitOrMock` returns the mock
operation result, refuting the claim that the fault propagates to the
tool-invocation boundary. -/
theorem withCloudKitOrMock_swallows_fault :
    withCloudKitOrMock ⟨true, true, true, ⟨true, none⟩, true, true⟩
      (Except.error ⟨ErrorCode.internalError, "CloudKit query failed"⟩)
      (Except.ok ("mock data")) = Except.ok ("mock data" : String) := rfl

/-- C1 (amended): in a production deployment, when the CloudKit
operation of a tool call fails, `withCloudKitOrMock` silently falls back
to the mock operation and returns its (synthetic) result; the CloudKit
fault itself never propagates. -/
theorem withCloudKitOrMock_falls_back_to_mock (s : ServerAuthState) (e : McpError)
    (mockOperation : Except McpError String)
    (hprod : s.productionMode = true) (hsvc : s.hasCloudKitService = true)
    (hauth : validateAuthentication s = Except.ok ()) :
    withCloudKitOrMock s (Except.error e) mockOperation = mockOperation := by
  unfold withCloudKitOrMock
  rw [hauth]
  rw [if_pos (by simp [hprod, hsvc])]

/-- Witness for the amended C1 theorem at a concrete production state. -/
theorem withCloudKitOrMock_falls_back_to_mock_witness :
    withCloudKitOrMock ⟨true, true, true, ⟨true, none⟩, true, true⟩
      (Except.error ⟨ErrorCode.internalError, "CloudKit operation failed"⟩)
      (Except.ok ("mock tasks")) = Except.ok ("mock tasks" : String) := by
  exact withCloudKitOrMock_falls_back_to_mock _ _ _ rfl rfl rfl

/-- C2: for every item currently in the Decide realm, validating a move
to Do succeeds exactly when the item has a non-null context reference
and a non-null end timestamp that is not strictly before the current
instant; on failure the reason names the precondition that failed. -/
theorem validateTransition_decide_to_do_spec (fmt : Int → String) (now : Int)
    (name ty : String) (item : MockItem)
    (hfetch : mockFetchItem name ty now = some item)
    (hrealm : item.realmId = REALM_DECIDE_ID) :
    ∃ vr, validateRealmTransition fmt now name ty ("do") = Except.ok vr ∧
      (vr.valid = true ↔
        item.contextRecordName ≠ none ∧ ∃ d, item.endDate = some d ∧ ¬ d < now) ∧
      (item.contextRecordName = none →
        vr.reason = ty ++ " must have a context assigned before moving to Do realm") ∧
      (item.contextRecordName ≠ none → item.endDate = none →
        vr.reason = ty ++ " must have a due date set before moving to Do realm") ∧
      (∀ d, item.contextRecordName ≠ none → item.endDate = some d → d < now →
        vr.reason =
          ty ++ " has a past due date (" ++ fmt d ++ ") - update due date or move back to Assess") := by
  obtain ⟨h1, h2, h3, h4⟩ := validateFromDecide_do_spec fmt now name ty item
    (mockItem_decide_shape name ty now item hfetch hrealm)
  exact ⟨validateFromDecide fmt now item REALM_DO_ID ty,
    validateRealmTransition_decide fmt now name ty item hfetch hrealm, h1, h2, h3, h4⟩

/-- Witness for C2 at a ready item: context and future due date give a
valid transition to Do. -/
theorem validateTransition_decide_to_do_spec_witness :
    ∃ vr, validateRealmTransition fmtSample 0 ("task_ready_1") ("Task") ("do") =
        Except.ok vr ∧ vr.valid = true := by
  obtain ⟨vr, hok, hiff, _, _, _⟩ := validateTransition_decide_to_do_spec fmtSample 0
    ("task_ready_1") ("Task")
    ⟨"task_ready_1", "Task", REALM_DECIDE_ID, some ("context_work"), some 86400000⟩
    (by decide) rfl
  exact ⟨vr, hok, hiff.mpr ⟨by simp, 86400000, rfl, by decide⟩⟩

/-- C3 (counterexample): for an item in Decide with both context and end
timestamp null, the validation reason does not mention the due date at
all (only the missing context), refuting the claim that the reason
mentions both. -/
theorem undecided_reason_counterexample :
    validateRealmTransition fmtSample 0 ("task_undecided_1") ("Task") ("do") =
      Except.ok ⟨false, "Task must have a context assigned before moving to Do realm"⟩ ∧
    containsSubstr ("Task must have a context assigned before moving to Do realm")
      ("due date") = false := ⟨rfl, rfl⟩

/-- C3 (amended): for an item in Decide with both context and end
timestamp null, validating a move to Do is disallowed with a reason that
mentions only the missing context (the source returns at the first
failed precondition); the missing due date is not mentioned. -/
theorem undecided_reason_context_only (fmt : Int → String) (now : Int)
    (name ty : String) (item : MockItem)
    (hfetch : mockFetchItem name ty now = some item)
    (hrealm : item.realmId = REALM_DECIDE_ID)
    (hctx : item.contextRecordName = none) (hend : item.endDate = none) :
    validateRealmTransition fmt now name ty ("do") =
      Except.ok ⟨false, ty ++ " must have a context assigned before moving to Do realm"⟩ ∧
    containsSubstr ("Task must have a context assigned before moving to Do realm")
      ("context") = true ∧
    containsSubstr ("Task must have a context assigned before moving to Do realm")
      ("due date") = false ∧
    containsSubstr ("Project must have a context assigned before moving to Do realm")
      ("due date") = false := by
  refine ⟨?_, rfl, rfl, rfl⟩
  rw [validateRealmTransition_decide fmt now name ty item hfetch hrealm]
  unfold validateFromDecide
  rw [if_pos rfl, hctx]
  rfl

/-- Witness for the amended C3 theorem at a concrete undecided item. -/
theorem undecided_reason_context_only_witness :
    validateRealmTransition fmtSample 0 ("task_undecided_1") ("Project") ("do") =
      Except.ok ⟨false, "Project" ++ " must have a context assigned before moving to Do realm"⟩ := by
  exact (undecided_reason_context_only fmtSample 0 ("task_undecided_1") ("Project")
    ⟨"task_undecided_1", "Project", REALM_DECIDE_ID, none, none⟩
    (by decide) rfl rfl rfl).1

/-- C4: completion is permitted exactly when the item is in the Do
realm; in any other realm it fails with an error instructing the caller
to move the item to Do first (the mock layer holds no item store, so a
failed attempt changes nothing). -/
theorem markAsDone_requires_do_realm (fmt : Int → String) (now : Int) (name : String)
    (taskItem projItem : MockItem)
    (hT : mockFetchItem name ("Task") now = some taskItem)
    (hP : mockFetchItem name ("Project") now = some projItem) :
    ((∃ msg, markTaskAsDone fmt now name = Except.ok msg) ↔
      taskItem.realmId = REALM_DO_ID) ∧
    (taskItem.realmId ≠ REALM_DO_ID →
      markTaskAsDone fmt now name = Except.error ⟨ErrorCode.invalidParams,
        "Task " ++ name ++ " must be in Do realm to mark as done. Current realm: " ++
          toString taskItem.realmId ++ ". Move to Do realm first."⟩) ∧
    ((∃ msg, markProjectAsDone fmt now name = Except.ok msg) ↔
      projItem.realmId = REALM_DO_ID) ∧
    (projItem.realmId ≠ REALM_DO_ID →
      markProjectAsDone fmt now name = Except.error ⟨ErrorCode.invalidParams,
        "Project " ++ name ++ " must be in Do realm to mark as done. Current realm: " ++
          toString projItem.realmId ++ ". Move to Do realm first."⟩) := by
  have hTe := markTaskAsDone_eq fmt now name taskItem hT
  have hPe := markProjectAsDone_eq fmt now name projItem hP
  refine ⟨?_, ?_, ?_, ?_⟩
  · rw [hTe]
    by_cases h3 : taskItem.realmId = REALM_DO_ID
    · rw [if_neg (not_not_intro h3)]
      simp [h3]
    · rw [if_pos h3]
      simp [h3]
  · intro h3
    rw [hTe, if_pos h3]
  · rw [hPe]
    by_cases h3 : projItem.realmId = REALM_DO_ID
    · rw [if_neg (not_not_intro h3)]
      simp [h3]
    · rw [if_pos h3]
      simp [h3]
  · intro h3
    rw [hPe, if_pos h3]

/-- Witness for C4: completing a task that sits in the Assess realm
fails with the move-to-Do instruction. -/
theorem markAsDone_requires_do_realm_witness :
    markTaskAsDone fmtSample 0 ("task_assess_1") = Except.error ⟨ErrorCode.invalidParams,
      "Task " ++ "task_assess_1" ++ " must be in Do realm to mark as done. Current realm: " ++
        "1" ++ ". Move to Do realm first."⟩ := by
  exact (markAsDone_requires_do_realm fmtSample 0 ("task_assess_1")
    ⟨"task_assess_1", "Task", REALM_ASSESS_ID, none, none⟩
    ⟨"task_assess_1", "Project", REALM_ASSESS_ID, none, none⟩
    (by decide) (by decide)).2.1 (by decide)

/-- C5 (code bug): `editTask` performs no realm check at all: editing a
task that sits in the Decide realm (record `task_undecided_1`, realm id
2 per the fetcher) succeeds, contradicting the documented rule that
content edits are permitted only in Assess. -/
theorem editTask_no_realm_check :
    mockFetchItem ("task_undecided_1") ("Task") 0 =
      some ⟨"task_undecided_1", "Task", REALM_DECIDE_ID, none, none⟩ ∧
    editTask ("task_undecided_1") (some ("New name")) (some 4) =
      Except.ok ("Task task_undecided_1 updated. Name set to \"New name\". Priority set to 4.") :=
  ⟨rfl, rfl⟩

/-- C6: a task due date is accepted exactly in the Decide realm with a
strictly future instant (too-early dates give the invalid-due-date
error, a wrong realm gives the realm error), while a project interval is
accepted unconditionally. -/
theorem setTaskDueDate_decide_future (parse : String → Int) (fmt : Int → String)
    (now : Int) (name endDate : String) (item : MockItem)
    (hfetch : mockFetchItem name ("Task") now = some item) :
    (item.realmId ≠ REALM_DECIDE_ID →
      setTaskDueDate parse fmt now name endDate = Except.error ⟨ErrorCode.invalidParams,
        "Task " ++ name ++ " must be in Decide realm to set due date. Current realm: " ++
          toString item.realmId⟩) ∧
    (item.realmId = REALM_DECIDE_ID → parse endDate ≤ now →
      setTaskDueDate parse fmt now name endDate = Except.error ⟨ErrorCode.invalidParams,
        "Due date must be in the future. Provided: " ++ fmt (parse endDate)⟩) ∧
    (item.realmId = REALM_DECIDE_ID → now < parse endDate →
      setTaskDueDate parse fmt now name endDate =
        Except.ok ("Due date (endDate) " ++ endDate ++ " set for " ++ "Task" ++ " " ++ name ++
          " in Decide realm.")) ∧
    (∀ projName startDate projEndDate : String,
      setProjectInterval projName startDate projEndDate =
        Except.ok ("Due date (endDate) " ++ projEndDate ++ " set for " ++ "Project" ++ " " ++
          projName ++ " in Decide realm.")) := by
  have he := setTaskDueDate_eq parse fmt now name endDate item hfetch
  refine ⟨?_, ?_, ?_, ?_⟩
  · intro h1
    rw [he, if_pos h1]
  · intro h1 h2
    rw [he, if_neg (not_not_intro h1), if_pos h2]
  · intro h1 h2
    rw [he, if_neg (not_not_intro h1), if_neg (by omega : ¬ parse endDate ≤ now)]
  · intro p st e
    rfl

/-- Witness for C6: a future due date on a Decide-realm task succeeds,
and a past project interval is accepted without any check. -/
theorem setTaskDueDate_decide_future_witness :
    setTaskDueDate parseSample fmtSample 0 ("task_ready_1") ("2030-01-01") =
      Except.ok ("Due date (endDate) " ++ "2030-01-01" ++ " set for " ++ "Task" ++ " " ++
        "task_ready_1" ++ " in Decide realm.") ∧
    setProjectInterval ("p1") ("2000-01-01") ("2000-01-02") =
      Except.ok ("Due date (endDate) " ++ "2000-01-02" ++ " set for " ++ "Project" ++ " " ++
        "p1" ++ " in Decide realm.") := by
  have h := setTaskDueDate_decide_future parseSample fmtSample 0 ("task_ready_1")
    ("2030-01-01") ⟨"task_ready_1", "Task", REALM_DECIDE_ID, some ("context_work"),
      some 86400000⟩ (by decide)
  exact ⟨h.2.2.1 rfl (by decide), h.2.2.2 ("p1") ("2000-01-01") ("2000-01-02")⟩

/-- C7: the three realm labels round-trip through id and back, any other
label fails with the invalid-realm-string error, and any other id fails
with the invalid-realm-ID error. -/
theorem realm_label_roundtrip :
    ((realmStringToId ("assess")).bind realmIdToString = Except.ok ("assess")) ∧
    ((realmStringToId ("decide")).bind realmIdToString = Except.ok ("decide")) ∧
    ((realmStringToId ("do")).bind realmIdToString = Except.ok ("do")) ∧
    (∀ s : String, s ≠ "assess" → s ≠ "decide" → s ≠ "do" →
      realmStringToId s =
        Except.error ⟨ErrorCode.invalidParams, "Invalid realm string: " ++ s⟩) ∧
    (∀ i : Int, i ≠ 1 → i ≠ 2 → i ≠ 3 →
      realmIdToString i =
        Except.error ⟨ErrorCode.internalError, "Invalid realm ID: " ++ toString i⟩) := by
  refine ⟨rfl, rfl, rfl, ?_, ?_⟩
  · intro s h1 h2 h3
    unfold realmStringToId
    rw [if_neg h1, if_neg h2, if_neg h3]
  · intro i h1 h2 h3
    unfold realmIdToString
    simp only [REALM_ASSESS_ID, REALM_DECIDE_ID, REALM_DO_ID]
    rw [if_neg h1, if_neg h2, if_neg h3]

/-- Witness for C7 at a label and an id outside the enums. -/
theorem realm_label_roundtrip_witness :
    realmStringToId ("foo") =
      Except.error ⟨ErrorCode.invalidParams, "Invalid realm string: " ++ "foo"⟩ ∧
    realmIdToString 0 =
      Except.error ⟨ErrorCode.internalError, "Invalid realm ID: " ++ toString (0 : Int)⟩ := by
  exact ⟨realm_label_roundtrip.2.2.2.1 ("foo") (by decide) (by decide) (by decide),
    realm_label_roundtrip.2.2.2.2 0 (by decide) (by decide) (by decide)⟩

/-- One `Map.set` step only adds the record name when it is new. -/
theorem names_mapSet (m : List CKTask) (t : CKTask) :
    (mapSet m t).map CKTask.recordName =
      if t.recordName ∈ m.map CKTask.recordName then m.map CKTask.recordName
      else m.map CKTask.recordName ++ [t.recordName] := by
  unfold mapSet
  by_cases h : m.any (fun u => u.recordName == t.recordName)
  · have hmem : t.recordName ∈ m.map CKTask.recordName := by
      obtain ⟨u, hu, he⟩ := List.any_eq_true.mp h
      exact List.mem_map.mpr ⟨u, hu, beq_iff_eq.mp he⟩
    rw [if_pos h, if_pos hmem, List.map_map]
    apply List.map_congr_left
    intro u hu
    by_cases he : u.recordName == t.recordName
    · simp only [Function.comp_apply, if_pos he]
      exact (beq_iff_eq.mp he).symm
    · simp only [Function.comp_apply, if_neg he]
  · have hmem : t.recordName ∉ m.map CKTask.recordName := by
      intro hc
      obtain ⟨u, hu, he⟩ := List.mem_map.mp hc
      apply h
      rw [List.any_eq_true]
      exact ⟨u, hu, beq_iff_eq.mpr he⟩
    rw [if_neg h, if_neg hmem, List.map_append]
    rfl

/-- Membership in the fold of `Map.set` steps is membership in the seed
or in the folded list. -/
theorem names_foldl_mem (l : List CKTask) : ∀ (m : List CKTask) (n : String),
    (n ∈ (l.foldl mapSet m).map CKTask.recordName ↔
      n ∈ m.map CKTask.recordName ∨ n ∈ l.map CKTask.recordName) := by
  induction l with
  | nil => intro m n; simp
  | cons t l ih =>
    intro m n
    rw [List.foldl_cons, ih, names_mapSet]
    by_cases h : t.recordName ∈ m.map CKTask.recordName
    · rw [if_pos h]
      simp only [List.map_cons, List.mem_cons]
      constructor
      · rintro (hm | hl)
        · exact Or.inl hm
        · exact Or.inr (Or.inr hl)
      · rintro (hm | hn | hl)
        · exact Or.inl hm
        · exact Or.inl (hn ▸ h)
        · exact Or.inr hl
    · rw [if_neg h]
      simp [or_assoc]

/-- The fold of `Map.set` steps preserves distinctness of record
names. -/
theorem names_foldl_nodup (l : List CKTask) : ∀ (m : List CKTask),
    (m.map CKTask.recordName).Nodup →
    ((l.foldl mapSet m).map CKTask.recordName).Nodup := by
  induction l with
  | nil => intro m h; simpa using h
  | cons t l ih =>
    intro m h
    rw [List.foldl_cons]
    apply ih
    rw [names_mapSet]
    by_cases hm : t.recordName ∈ m.map CKTask.recordName
    · rw [if_pos hm]
      exact h
    · rw [if_neg hm]
      rw [List.nodup_append]
      exact ⟨h, List.nodup_singleton _, List.disjoint_singleton.mpr hm⟩

/-- C8: the Undecided-in-Decide result holds exactly the record names of
the two input query results (Decide items with null context, Decide
items with null end date), each exactly once. -/
theorem getTasksInDecideUndecided_union_dedup (db : List CKTask) :
    ((getTasksInDecideUndecided db).map CKTask.recordName).Nodup ∧
    (∀ n : String, n ∈ (getTasksInDecideUndecided db).map CKTask.recordName ↔
      (n ∈ (decideNoContext db).map CKTask.recordName ∨
       n ∈ (decideNoDueDate db).map CKTask.recordName)) := by
  constructor
  · exact names_foldl_nodup _ [] (by simp)
  · intro n
    unfold getTasksInDecideUndecided
    rw [names_foldl_mem]
    simp [List.map_append]

/-- The loop of `validateArgs` fails on the first missing required
argument and succeeds when none is missing. -/
theorem validateArgsLoop_spec (a : List (String × ArgVal)) :
    ∀ required : List String,
      (required.find? (fun r => argMissing a r) = none →
        validateArgsLoop a required = Except.ok ()) ∧
      (∀ r, required.find? (fun r => argMissing a r) = some r →
        validateArgsLoop a required =
          Except.error ⟨ErrorCode.invalidParams, "Missing required argument: " ++ r ++ "."⟩) := by
  intro required
  induction required with
  | nil => exact ⟨fun _ => rfl, fun r hr => by simp at hr⟩
  | cons req rest ih =>
    constructor
    · intro hnone
      by_cases h : argMissing a req
      · simp [List.find?_cons, h] at hnone
      · have hf : argMissing a req = false := by simpa using h
        simp only [List.find?_cons, hf] at hnone
        unfold validateArgsLoop
        rw [if_neg (by simpa using h)]
        exact ih.1 hnone
    · intro r hr
      by_cases h : argMissing a req
      · simp only [List.find?_cons, h, Option.some.injEq] at hr
        subst hr
        unfold validateArgsLoop
        rw [if_pos h]
      · have hf : argMissing a req = false := by simpa using h
        simp only [List.find?_cons, hf] at hr
        unfold validateArgsLoop
        rw [if_neg (by simpa using h)]
        exact ih.2 r hr

/-- C9: a required tool argument that is absent, `undefined`, `null` or
the empty string makes the call fail, before any operation runs, with an
InvalidParams error naming a missing required argument (the first such
argument in the required list). -/
theorem validateArgs_missing_or_empty (a : List (String × ArgVal))
    (required : List String) (req : String)
    (hreq : req ∈ required)
    (hbad : lookupArg a req = none ∨ lookupArg a req = some ArgVal.undef ∨
      lookupArg a req = some ArgVal.null ∨ lookupArg a req = some (ArgVal.str (""))) :
    ∃ r, r ∈ required ∧ argMissing a r = true ∧
      validateArgs (some a) required =
        Except.error ⟨ErrorCode.invalidParams, "Missing required argument: " ++ r ++ "."⟩ ∧
      ∀ op : Except McpError String,
        (validateArgs (some a) required).bind (fun _ => op) =
          Except.error ⟨ErrorCode.invalidParams, "Missing required argument: " ++ r ++ "."⟩ := by
  have hmiss : argMissing a req = true := by
    rcases hbad with h | h | h | h <;> simp [argMissing, h]
  have hsome : (required.find? (fun r => argMissing a r)).isSome := by
    rw [List.find?_isSome]
    exact ⟨req, hreq, hmiss⟩
  obtain ⟨r, hr⟩ := Option.isSome_iff_exists.mp hsome
  have hval : validateArgs (some a) required =
      Except.error ⟨ErrorCode.invalidParams, "Missing required argument: " ++ r ++ "."⟩ :=
    (validateArgsLoop_spec a required).2 r hr
  refine ⟨r, List.mem_of_find?_eq_some hr, List.find?_some hr, hval, ?_⟩
  intro op
  rw [hval]
  rfl

/-- Witness for C9: a required argument supplied as the empty string is
rejected like a missing one. -/
theorem validateArgs_missing_or_empty_witness :
    ∃ r, r ∈ ["taskRecordName"] ∧
      argMissing [("taskRecordName", ArgVal.str (""))] r = true ∧
      validateArgs (some [("taskRecordName", ArgVal.str (""))]) ["taskRecordName"] =
        Except.error ⟨ErrorCode.invalidParams, "Missing required argument: " ++ r ++ "."⟩ ∧
      ∀ op : Except McpError String,
        (validateArgs (some [("taskRecordName", ArgVal.str (""))]) ["taskRecordName"]).bind
            (fun _ => op) =
          Except.error ⟨ErrorCode.invalidParams, "Missing required argument: " ++ r ++ "."⟩ := by
  exact validateArgs_missing_or_empty [("taskRecordName", ArgVal.str (""))] ["taskRecordName"]
    ("taskRecordName") (by decide) (Or.inr (Or.inr (Or.inr rfl)))

/-- C10: the item fetch used by realm-transition validation is total
(never `null`), any unrecognized record name resolves to a default
Assess item with no context and no end date, and consequently no
successful validation ever carries the item-not-found reason and no
realm move ever fails with it. -/
theorem mockFetchItem_total_default_noNotFound (fmt : Int → String) (now : Int)
    (name ty : String) :
    (mockFetchItem name ty now).isSome = true ∧
    (containsSubstr name ("assess") = false →
     containsSubstr name ("undecided") = false →
     containsSubstr name ("stalled") = false →
     containsSubstr name ("ready") = false →
     containsSubstr name ("do") = false →
     mockFetchItem name ty now = some ⟨name, ty, REALM_ASSESS_ID, none, none⟩) ∧
    (∀ target vr, validateRealmTransition fmt now name ty target = Except.ok vr →
      vr.reason ≠ ty ++ " " ++ name ++ " not found") ∧
    (∀ target, moveTaskToRealm fmt now name target ≠
      Except.error ⟨ErrorCode.invalidParams, "Task" ++ " " ++ name ++ " not found"⟩) ∧
    (∀ target, moveProjectToRealm fmt now name target ≠
      Except.error ⟨ErrorCode.invalidParams, "Project" ++ " " ++ name ++ " not found"⟩) := by
  refine ⟨?_, ?_, ?_, ?_, ?_⟩
  · obtain hm | hm | hm | hm | hm := mockFetchItem_cases name ty now <;> rw [hm] <;> rfl
  · intro h1 h2 h3 h4 h5
    unfold mockFetchItem
    simp [h1, h2, h3, h4, h5]
  · intro target vr h
    exact validateRealmTransition_reason_ne fmt now name ty target vr h
  · intro target
    exact moveTaskToRealm_ne_notFound fmt now name target
  · intro target
    exact moveProjectToRealm_ne_notFound fmt now name target

/-- Witness for C10 at an unrecognized record name. -/
theorem mockFetchItem_total_default_noNotFound_witness :
    (mockFetchItem ("xyz") ("Task") 0).isSome = true ∧
    mockFetchItem ("xyz") ("Task") 0 = some ⟨"xyz", "Task", REALM_ASSESS_ID, none, none⟩ ∧
    (⟨true, "Task" ++
        " moved directly from Assess to Do (skipping Decide) - ensure context and due date are set"⟩ :
      ValidationResult).reason ≠ "Task" ++ " " ++ "xyz" ++ " not found" ∧
    moveTaskToRealm fmtSample 0 ("xyz") ("do") ≠
      Except.error ⟨ErrorCode.invalidParams, "Task" ++ " " ++ "xyz" ++ " not found"⟩ := by
  have h := mockFetchItem_total_default_noNotFound fmtSample 0 ("xyz") ("Task")
  refine ⟨h.1, h.2.1 rfl rfl rfl rfl rfl, ?_, h.2.2.2.1 ("do")⟩
  exact h.2.2.1 ("do") _ rfl

end AddTaskManager
